import Mathlib

/-!
Shallow embedding of the CV-structuring engine of this repository
(`estructurar_cv.py`, `seccionesHV_nlp.py`, `limpiar.py`).

Python strings are Lean strings (their `data` is the list of characters);
Python `re` patterns are embedded with a small continuation-passing
matcher whose combinators mirror exactly the regex constructs the
program uses: literals, character classes, ordered alternation, the
greedy option `?`, bounded repetition `{n}`, the greedy star over a
character class, word boundaries `\b`, and the anchors `^`/`$`.
Backtracking order matches Python's (greedy first, alternatives in
written order, leftmost match wins).

Python's Unicode-aware character classes (`\w`, `\s`, `str.lower`,
`str.isupper`, the NFKD ascii folding) are modelled over the character
repertoire the program actually manipulates: ASCII plus the Spanish
accented letters á é í ó ú ü ñ (both cases).  All definitions are
executable, so every concrete claim can be settled by evaluation.
-/

namespace HV

/-- Python `\s` over the modelled repertoire (space, tab, newline,
carriage return, vertical tab, form feed). -/
def pyEsEspacio (c : Char) : Bool :=
  c = ' ' || c = '\t' || c = '\n' || c = '\r' || c = '\x0b' || c = '\x0c'

def minusculasAcentuadas : List Char := ['á', 'é', 'í', 'ó', 'ú', 'ü', 'ñ']

def mayusculasAcentuadas : List Char := ['Á', 'É', 'Í', 'Ó', 'Ú', 'Ü', 'Ñ']

/-- Python `\w` (alphanumeric, underscore, accented Spanish letters). -/
def esCaracterPalabra (c : Char) : Bool :=
  c.isAlphanum || c = '_' || minusculasAcentuadas.contains c
    || mayusculasAcentuadas.contains c

/-- ASCII digit, Python `\d` over the modelled repertoire. -/
def esDigito (c : Char) : Bool := '0' ≤ c && c ≤ '9'

/-- Python `str.lower` on one character (ASCII plus Spanish accents). -/
def pyMinusculaChar (c : Char) : Char :=
  if c.isUpper then c.toLower
  else if c = 'Á' then 'á' else if c = 'É' then 'é'
  else if c = 'Í' then 'í' else if c = 'Ó' then 'ó'
  else if c = 'Ú' then 'ú' else if c = 'Ü' then 'ü'
  else if c = 'Ñ' then 'ñ' else c

def pyMinusculas (l : List Char) : List Char := l.map pyMinusculaChar

/-- Python `str.upper` on one character. -/
def pyMayusculaChar (c : Char) : Char :=
  if c.isLower then c.toUpper
  else if c = 'á' then 'Á' else if c = 'é' then 'É'
  else if c = 'í' then 'Í' else if c = 'ó' then 'Ó'
  else if c = 'ú' then 'Ú' else if c = 'ü' then 'Ü'
  else if c = 'ñ' then 'Ñ' else c

def pyMayusculas (l : List Char) : List Char := l.map pyMayusculaChar

/-- Python `str.capitalize`: first character upper-cased, rest lower-cased. -/
def pyCapitalizar (l : List Char) : List Char :=
  match l with
  | [] => []
  | c :: resto => pyMayusculaChar c :: pyMinusculas resto

/-- Strip characters satisfying `f` from both ends (Python `str.strip`). -/
def pyStripGen (f : Char → Bool) (l : List Char) : List Char :=
  ((l.dropWhile f).reverse.dropWhile f).reverse

def pyStrip (l : List Char) : List Char := pyStripGen pyEsEspacio l

def pyStripSet (cs : List Char) (l : List Char) : List Char :=
  pyStripGen (fun c => cs.contains c) l

/-- Python `not s.strip()`: the string is empty or all whitespace. -/
def esBlanca (l : List Char) : Bool := l.all pyEsEspacio

/-- Python `sub in s` (substring containment). -/
def contieneAux (sub : List Char) : List Char → Bool
  | [] => sub.isEmpty
  | c :: resto => sub.isPrefixOf (c :: resto) || contieneAux sub resto

def contiene (sub : String) (s : List Char) : Bool := contieneAux sub.data s

/-- Python `str.split("\n")`: split at every newline, keeping empties. -/
def pySplitLineas : List Char → List (List Char)
  | [] => [[]]
  | c :: resto =>
    if c = '\n' then [] :: pySplitLineas resto
    else
      match pySplitLineas resto with
      | h :: t => (c :: h) :: t
      | [] => [[c]]

def unirLineas : List (List Char) → List Char
  | [] => []
  | [l] => l
  | l :: ls => l ++ '\n' :: unirLineas ls

/-- Python `str.split()` with no argument: whitespace-separated words. -/
def palabrasAux : List Char → List Char → List (List Char)
  | [], acc => if acc.isEmpty then [] else [acc.reverse]
  | c :: resto, acc =>
    if pyEsEspacio c then
      if acc.isEmpty then palabrasAux resto []
      else acc.reverse :: palabrasAux resto []
    else palabrasAux resto (c :: acc)

def pySplitWS (l : List Char) : List (List Char) := palabrasAux l []

def unirConEspacios : List (List Char) → List Char
  | [] => []
  | [w] => w
  | w :: ws => w ++ ' ' :: unirConEspacios ws

/-- Python `list(dict.fromkeys(l))`: deduplicate keeping first occurrences. -/
def pyDedupAux : List String → List String → List String
  | [], _ => []
  | a :: resto, vistos =>
    if a ∈ vistos then pyDedupAux resto vistos
    else a :: pyDedupAux resto (a :: vistos)

def pyDedup (l : List String) : List String := pyDedupAux l []

/-- Python `<` on strings: lexicographic on code points. -/
def lexMenor : List Char → List Char → Bool
  | [], [] => false
  | [], _ :: _ => true
  | _ :: _, [] => false
  | a :: as, b :: bs =>
    if a.toNat < b.toNat then true
    else if b.toNat < a.toNat then false
    else lexMenor as bs

def pyMenorStr (a b : String) : Bool := lexMenor a.data b.data

/-- Python truthiness of an optional string (`None` and `""` are falsy). -/
def pyVerdadera : Option String → Bool
  | none => false
  | some s => !s.data.isEmpty

def strDe (l : List Char) : String := ⟨l⟩

/-! ### The regex matcher

A pattern receives the previous character (for `\b`), the remaining
input, and a continuation; it returns the continuation's answer for the
first (in Python's backtracking order) way of matching a prefix.  The
answer is the input remaining after the whole match. -/

abbrev Continuacion := Option Char → List Char → Option (List Char)

abbrev Patron := Option Char → List Char → Continuacion → Option (List Char)

/-- A single character from a class. -/
def pClase (f : Char → Bool) : Patron := fun _ l k =>
  match l with
  | c :: resto => if f c then k (some c) resto else none
  | [] => none

/-- A literal string. -/
def pLit : List Char → Patron
  | [] => fun p l k => k p l
  | c :: cs => fun _ l k =>
    match l with
    | x :: xs => if x = c then pLit cs (some x) xs k else none
    | [] => none

/-- A literal string, case-insensitively (`re.IGNORECASE`); the literal
itself is given in lower case. -/
def pLitCI : List Char → Patron
  | [] => fun p l k => k p l
  | c :: cs => fun _ l k =>
    match l with
    | x :: xs => if pyMinusculaChar x = c then pLitCI cs (some x) xs k else none
    | [] => none

/-- Sequencing. -/
def pSeq (a b : Patron) : Patron := fun p l k =>
  a p l (fun p2 l2 => b p2 l2 k)

/-- Ordered alternation (Python tries the left alternative first). -/
def pAlt (a b : Patron) : Patron := fun p l k =>
  (a p l k).orElse (fun _ => b p l k)

def pAltL : List Patron → Patron
  | [] => fun _ _ _ => none
  | [m] => m
  | m :: ms => pAlt m (pAltL ms)

/-- Greedy `?`: try with the piece first, then without. -/
def pOpc (a : Patron) : Patron := fun p l k =>
  (a p l k).orElse (fun _ => k p l)

/-- Greedy `*` over a character class, with full backtracking. -/
def pEstrella (f : Char → Bool) : Patron := fun p l k => estrellaAux f p l k
where
  estrellaAux (f : Char → Bool) : Option Char → List Char → Continuacion →
      Option (List Char)
    | p, [], k => k p []
    | p, c :: resto, k =>
      if f c then
        (estrellaAux f (some c) resto k).orElse (fun _ => k p (c :: resto))
      else k p (c :: resto)

/-- Greedy `+` over a character class. -/
def pMas (f : Char → Bool) : Patron := pSeq (pClase f) (pEstrella f)

/-- Python `{n}` over a character class. -/
def pRep : Nat → (Char → Bool) → Patron
  | 0, _ => fun p l k => k p l
  | n + 1, f => pSeq (pClase f) (pRep n f)

/-- Python `{n,}` over a character class. -/
def pRepMin (n : Nat) (f : Char → Bool) : Patron := pSeq (pRep n f) (pEstrella f)

def esPalabraOpt : Option Char → Bool
  | none => false
  | some c => esCaracterPalabra c

/-- Python `\b`: exactly one side of the position is a word character. -/
def pFrontera : Patron := fun p l k =>
  let der := match l with
    | c :: _ => esCaracterPalabra c
    | [] => false
  if esPalabraOpt p != der then k p l else none

/-- Python `$` without `re.MULTILINE`: end of input or just before a final newline. -/
def pFin : Patron := fun p l k =>
  match l with
  | [] => k p []
  | ['\n'] => k p l
  | _ => none

/-- Run a pattern at a fixed position; answer is the rest after the match. -/
def correr (m : Patron) (p : Option Char) (l : List Char) : Option (List Char) :=
  m p l (fun _ resto => some resto)

/-- Python `re.match`: anchored at the start. -/
def reMatch (m : Patron) (l : List Char) : Option (List Char) := correr m none l

/-- Python `re.search` from a given position with accumulated (reversed) prefix:
returns `(text before the match, matched text, text after)`. -/
def reSearchDesde (m : Patron) :
    Option Char → List Char → List Char →
    Option (List Char × List Char × List Char)
  | p, pre, [] =>
    match correr m p [] with
    | some _ => some (pre.reverse, [], [])
    | none => none
  | p, pre, c :: resto2 =>
    match correr m p (c :: resto2) with
    | some resto =>
      some (pre.reverse,
            (c :: resto2).take ((c :: resto2).length - resto.length), resto)
    | none => reSearchDesde m (some c) (c :: pre) resto2

def reSearch (m : Patron) (l : List Char) :
    Option (List Char × List Char × List Char) :=
  reSearchDesde m none [] l

/-- Python `re.finditer`, collecting the matched texts (non-overlapping, scanning
left to right).  Fuelled recursion; the fuel `l.length + 1` is enough
because every accepted match here is non-empty. -/
def finditerAux (m : Patron) : Nat → Option Char → List Char → List (List Char)
  | 0, _, _ => []
  | fuel + 1, p, l =>
    match correr m p l with
    | some resto =>
      let emp := l.take (l.length - resto.length)
      match emp.getLast? with
      | some u => emp :: finditerAux m fuel (some u) resto
      | none =>
        match l with
        | [] => []
        | c :: r => finditerAux m fuel (some c) r
    | none =>
      match l with
      | [] => []
      | c :: r => finditerAux m fuel (some c) r

def finditer (m : Patron) (l : List Char) : List (List Char) :=
  finditerAux m (l.length + 1) none l

/-- Python `re.sub(pattern, "", s)`: delete every non-overlapping match. -/
def reSubAux (m : Patron) : Nat → Option Char → List Char → List Char
  | 0, _, l => l
  | fuel + 1, p, l =>
    match correr m p l with
    | some resto =>
      let emp := l.take (l.length - resto.length)
      match emp.getLast? with
      | some u => reSubAux m fuel (some u) resto
      | none =>
        match l with
        | [] => []
        | c :: r => c :: reSubAux m fuel (some c) r
    | none =>
      match l with
      | [] => []
      | c :: r => c :: reSubAux m fuel (some c) r

def reSub (m : Patron) (l : List Char) : List Char :=
  reSubAux m (l.length + 1) none l

/-! ### Date Resolver (`extraer_fechas_de_linea`, estructurar_cv.py) -/

def guionCorto (c : Char) : Bool := c = '-' || c = '–'

def guionOBarra (c : Char) : Bool := c = '-' || c = '/'

/-- Python `m.group(2).zfill(2)` style padding (identity on two-digit groups). -/
def pyZfill (n : Nat) (l : List Char) : List Char :=
  List.replicate (n - l.length) '0' ++ l

/-- Pattern 0: `\b(\d{2})/(\d{2})/(\d{4})\b`. -/
def patronDDMMYYYY : Patron :=
  pSeq pFrontera (pSeq (pRep 2 esDigito) (pSeq (pClase (fun c => c = '/'))
    (pSeq (pRep 2 esDigito) (pSeq (pClase (fun c => c = '/'))
      (pSeq (pRep 4 esDigito) pFrontera)))))

/-- Python `(20\d{2}|19\d{2})`. -/
def anioPatron : Patron :=
  pSeq (pAlt (pLit ['2', '0']) (pLit ['1', '9'])) (pRep 2 esDigito)

/-- Pattern 0b: `\b(20\d{2}|19\d{2})\s*[-–]\s*(20\d{2}|19\d{2})\b`. -/
def patronRangoAnios : Patron :=
  pSeq pFrontera (pSeq anioPatron (pSeq (pEstrella pyEsEspacio)
    (pSeq (pClase guionCorto) (pSeq (pEstrella pyEsEspacio)
      (pSeq anioPatron pFrontera)))))

/-- Pattern 1: `\b(\d{2})\s*` dash-or-slash `\s*(\d{4})\b`. -/
def patronMMYYYY : Patron :=
  pSeq pFrontera (pSeq (pRep 2 esDigito) (pSeq (pEstrella pyEsEspacio)
    (pSeq (pClase guionOBarra) (pSeq (pEstrella pyEsEspacio)
      (pSeq (pRep 4 esDigito) pFrontera)))))

/-- Pattern 2 (one month name): `\b<nombre>\b\s+(\d{4})\b`. -/
def patronMes (nombre : List Char) : Patron :=
  pSeq pFrontera (pSeq (pLit nombre) (pSeq pFrontera
    (pSeq (pMas pyEsEspacio) (pSeq (pRep 4 esDigito) pFrontera))))

/-- Pattern 3: `\b(20\d{2}|19\d{2})\b`. -/
def patronAnioSolo : Patron := pSeq pFrontera (pSeq anioPatron pFrontera)

/-- The `MESES_ES` table in `sorted(..., key=lambda x: -len(x[0]))` order
(Python's stable sort of the insertion-ordered dict). -/
def mesesOrdenados : List (String × String) :=
  [("septiembre", "09"), ("noviembre", "11"), ("diciembre", "12"),
   ("febrero", "02"), ("octubre", "10"), ("agosto", "08"),
   ("enero", "01"), ("marzo", "03"), ("abril", "04"),
   ("junio", "06"), ("julio", "07"), ("mayo", "05")]

/-- Python `MESES_ES` keys in dictionary (insertion) order. -/
def mesesDiccionario : List String :=
  ["enero", "febrero", "marzo", "abril", "mayo", "junio",
   "julio", "agosto", "septiembre", "octubre", "noviembre", "diciembre"]

def ultimos (n : Nat) (l : List Char) : List Char := l.drop (l.length - n)

/-- Tokens from pattern 0: `f"{g3}-{g2.zfill(2)}"` per match. -/
def pat0 (l : List Char) : List String :=
  (finditer patronDDMMYYYY l).map (fun m =>
    strDe (ultimos 4 m ++ '-' :: pyZfill 2 ((m.drop 3).take 2)))

/-- Tokens from pattern 0b (a single `re.search`): `[g1, g2]`. -/
def pat0b (l : List Char) : List String :=
  match reSearch patronRangoAnios l with
  | some (_, emp, _) => [strDe (emp.take 4), strDe (ultimos 4 emp)]
  | none => []

/-- Tokens from pattern 1: `f"{g2}-{g1.zfill(2)}"` per match. -/
def pat1 (l : List Char) : List String :=
  (finditer patronMMYYYY l).map (fun m =>
    strDe (ultimos 4 m ++ '-' :: pyZfill 2 (m.take 2)))

/-- Tokens from pattern 2: per month name (longest first), per match,
`f"{g1}-{mes_num}"` on the lower-cased line. -/
def pat2 (texto : List Char) : List String :=
  (mesesOrdenados.map (fun par =>
    (finditer (patronMes par.1.data) texto).map (fun m =>
      strDe (ultimos 4 m ++ '-' :: par.2.data)))).flatten

/-- Tokens from pattern 3: every bare year, in order, not yet deduplicated. -/
def pat3 (l : List Char) : List String :=
  (finditer patronAnioSolo l).map strDe

/-- Python `\b(actual|presente|la\s+fecha|vigente|hoy)\b` on the lower-cased line. -/
def patronActual : Patron :=
  pSeq pFrontera (pSeq (pAltL
    [pLit "actual".data, pLit "presente".data,
     pSeq (pLit "la".data) (pSeq (pMas pyEsEspacio) (pLit "fecha".data)),
     pLit "vigente".data, pLit "hoy".data]) pFrontera)

def esActualEn (texto : List Char) : Bool := (reSearch patronActual texto).isSome

/-- Python `re.match(r"\d{4}-\d{2}", s)`: prefix test for a canonical year-month. -/
def coincideYM : List Char → Bool
  | a :: b :: c :: d :: e :: f :: g :: _ =>
    esDigito a && esDigito b && esDigito c && esDigito d && e = '-'
      && esDigito f && esDigito g
  | _ => false

def coincideYMStr (s : String) : Bool := coincideYM s.data

def coincideYMOpt : Option String → Bool
  | some s => coincideYM s.data
  | none => false

/-- The closing swap of `extraer_fechas_de_linea`: when exactly two
tokens both match `\d{4}-\d{2}` and are in descending order, swap. -/
def ordenCronologico : List String → List String
  | [a, b] =>
    if coincideYMStr a && coincideYMStr b && pyMenorStr b a then [b, a]
    else [a, b]
  | otras => otras

/-- Python `extraer_fechas_de_linea(linea)`: the five pattern classes in priority
order, each guarded by `if not fechas`, then the ongoing marker and the
chronological swap. -/
def extraer_fechas_de_linea (linea : String) : List String × Bool :=
  let texto := pyMinusculas linea.data
  let fechas := pat0 linea.data
  let fechas := if fechas.isEmpty then pat0b linea.data else fechas
  let fechas := if fechas.isEmpty then pat1 linea.data else fechas
  let fechas := if fechas.isEmpty then pat2 texto else fechas
  let fechas := if fechas.isEmpty then pyDedup (pat3 linea.data) else fechas
  (ordenCronologico fechas, esActualEn texto)

/-! ### Duration Calculator (`calcular_duracion_meses`) -/

def valDigito (c : Char) : Nat := c.toNat - 48

/-- Python `datetime.strptime(s, "%Y-%m")`: exactly four digits, a dash, and a
month written with one digit `1-9` or two digits `01-12`; the year must
be at least `datetime.MINYEAR = 1`.  Returns `(year, month)`. -/
def parseYM (s : String) : Option (Nat × Nat) :=
  match s.data with
  | [a, b, c, d, '-', m1] =>
    if esDigito a && esDigito b && esDigito c && esDigito d
        && '1' ≤ m1 && m1 ≤ '9' then
      let y := ((valDigito a * 10 + valDigito b) * 10 + valDigito c) * 10
        + valDigito d
      if y = 0 then none else some (y, valDigito m1)
    else none
  | [a, b, c, d, '-', m1, m2] =>
    if esDigito a && esDigito b && esDigito c && esDigito d && esDigito m2 then
      let y := ((valDigito a * 10 + valDigito b) * 10 + valDigito c) * 10
        + valDigito d
      let m := valDigito m1 * 10 + valDigito m2
      if y = 0 then none
      else if (m1 = '1' && m ≤ 12) || (m1 = '0' && 1 ≤ m) then some (y, m)
      else none
    else none
  | _ => none

/-- The end date is resolved to `datetime.now()` when `fin` is falsy
(`None` or empty) or equals `"presente"` case-insensitively. -/
def esFinAbierto : Option String → Bool
  | none => true
  | some t => t.data.isEmpty || pyMinusculas t.data = "presente".data

/-- Python `calcular_duracion_meses(inicio, fin)`, with the wall clock passed in
as `ahora = (year, month)`.  Any parse failure is the caught exception
path and yields `none`. -/
def calcular_duracion_meses (ahora : Nat × Nat) (inicio fin : Option String) :
    Option Int :=
  match inicio with
  | none => none
  | some ini =>
    match parseYM ini with
    | none => none
    | some (yi, mi) =>
      let finR : Option (Nat × Nat) :=
        match fin with
        | none => some ahora
        | some f =>
          if f.data.isEmpty then some ahora
          else if pyMinusculas f.data = "presente".data then some ahora
          else parseYM f
      match finR with
      | none => none
      | some (yf, mf) =>
        some (max 0 (((yf : Int) - (yi : Int)) * 12 + ((mf : Int) - (mi : Int))))

/-! ### Line classifiers (`es_linea_solo_fechas`, `es_probable_cargo`,
`es_probable_empresa`) -/

/-- The deletion pattern of `es_linea_solo_fechas`, in source alternation
order: `\d{2}` dash-or-slash `\d{4}`, `\b(20|19)\d{2}\b`, the month
names, `\b(actual|presente|la\s+fecha|vigente)\b`, and single characters
from the class en-dash em-dash dash slash whitespace. -/
def patronSoloFechas : Patron :=
  pAltL
    [pSeq (pRep 2 esDigito) (pSeq (pClase guionOBarra) (pRep 4 esDigito)),
     patronAnioSolo,
     pSeq pFrontera (pSeq (pAltL (mesesDiccionario.map (fun n => pLit n.data)))
       pFrontera),
     pSeq pFrontera (pSeq (pAltL
       [pLit "actual".data, pLit "presente".data,
        pSeq (pLit "la".data) (pSeq (pMas pyEsEspacio) (pLit "fecha".data)),
        pLit "vigente".data]) pFrontera),
     pClase (fun c => c = '–' || c = '—' || c = '-' || c = '/' || pyEsEspacio c)]

/-- Python `es_linea_solo_fechas(linea)`: at most five characters remain after
deleting all date-like tokens from the lower-cased line. -/
def es_linea_solo_fechas (linea : String) : Bool :=
  (pyStrip (reSub patronSoloFechas (pyMinusculas linea.data))).length ≤ 5

def CARGOS_KEYWORDS : List String :=
  ["auditor", "coordinador", "gerente", "director", "analista",
   "contador", "contadora", "jefe", "supervisor", "lider", "líder",
   "asistente", "profesional", "asesor", "revisor", "subgerente",
   "tesorero", "auxiliar", "practicante", "pasante", "ingeniero",
   "administrador", "ejecutivo", "consultor", "socio", "representante"]

def EMPRESAS_SUFIJOS : List String :=
  ["sas", "sa", "s.a.s", "ltda", "s.a", "e.s.e", "e.i.c.e",
   "epm", "grupo", "banco", "universidad", "corporacion",
   "fundacion", "ministerio", "alcaldia", "gobernacion"]

/-- Stems of the first-person verb alternatives, each followed by `[eé]`. -/
def raicesVerbo : List String :=
  ["particip", "realic", "apoy", "desarroll", "elabor",
   "ejecut", "gestion", "coordin", "supervis", "implement"]

/-- Python `\b(particip[eé]|...|consolidé|me\s+desempeñ)\b`. -/
def patronVerboPrimera : Patron :=
  pSeq pFrontera (pSeq (pAltL
    ((raicesVerbo.map (fun r =>
        pSeq (pLit r.data) (pClase (fun c => c = 'e' || c = 'é')))) ++
     [pLit "consolidé".data,
      pSeq (pLit "me".data) (pSeq (pMas pyEsEspacio) (pLit "desempeñ".data))]))
    pFrontera)

/-- Python `es_probable_cargo(linea)`. -/
def es_probable_cargo (linea : String) : Bool :=
  let lineaL := pyStrip (pyMinusculas linea.data)
  if linea.data.length > 80 || es_linea_solo_fechas linea then false
  else if (reSearch patronVerboPrimera lineaL).isSome then false
  else
    let palabras := pySplitWS lineaL
    let primeras := unirConEspacios (palabras.take 4)
    CARGOS_KEYWORDS.any (fun k =>
      contiene k primeras || (contiene k lineaL && palabras.length ≤ 5))

def claseProperInicio (c : Char) : Bool :=
  ('A' ≤ c && c ≤ 'Z') || c = 'Á' || c = 'É' || c = 'Í' || c = 'Ó'
    || c = 'Ú' || c = 'Ñ'

def claseProperResto (c : Char) : Bool :=
  claseProperInicio c || ('a' ≤ c && c ≤ 'z') || c = 'á' || c = 'é'
    || c = 'í' || c = 'ó' || c = 'ú' || c = 'ñ' || pyEsEspacio c
    || c = '&' || c = '.' || c = ','

/-- Python `re.match(r"^[A-ZÁÉÍÓÚÑ][A-ZÁÉÍÓÚÑa-záéíóúñ\s&.,]+$", s)` as a whole-
string shape (the lines this is applied to never carry a trailing
newline, so the `$`-before-final-newline case does not arise). -/
def coincideProper : List Char → Bool
  | c :: resto => claseProperInicio c && !resto.isEmpty
      && resto.all claseProperResto
  | [] => false

/-- Python `str.isupper`: at least one cased character and no lower-case
cased character. -/
def esCasedChar (c : Char) : Bool :=
  c.isAlpha || minusculasAcentuadas.contains c || mayusculasAcentuadas.contains c

def esMayusculaChar (c : Char) : Bool :=
  ('A' ≤ c && c ≤ 'Z') || mayusculasAcentuadas.contains c

def pyEsMayusculas (l : List Char) : Bool :=
  l.any esCasedChar && l.all (fun c => !esCasedChar c || esMayusculaChar c)

/-- Python `es_probable_empresa(linea)`. -/
def es_probable_empresa (linea : String) : Bool :=
  let lineaL := pyMinusculas linea.data
  EMPRESAS_SUFIJOS.any (fun s => contiene s lineaL) ||
  (pyEsMayusculas linea.data && 3 < linea.data.length
    && linea.data.length < 80) ||
  (coincideProper (pyStrip linea.data) && linea.data.length < 80)

/-! ### `separar_empresa_cargo_guion` (nlp_spacy.py) -/

/-- Python `\s+[-–]\s+`, the split separator of `separar_empresa_cargo_guion`. -/
def patronSepGuion : Patron :=
  pSeq (pMas pyEsEspacio) (pSeq (pClase guionCorto) (pMas pyEsEspacio))

/-- Python `separar_empresa_cargo_guion(linea)` when spaCy's model is not
loaded (`_SPACY_DISPONIBLE = False`): split at the first dash separator
(`re.split(..., maxsplit=1)`), require both parts at most 60
characters, and default to left = company, right = title. -/
def separar_empresa_cargo_guion (linea : String) :
    Option String × Option String :=
  match reSearch patronSepGuion linea.data with
  | none => (none, none)
  | some (pre, _, post) =>
    let izq := pyStrip pre
    let der := pyStrip post
    if izq.length > 60 || der.length > 60 then (none, none)
    else (some (strDe izq), some (strDe der))

/-- The `ImportError` fallback stub defined inside estructurar_cv.py:
`def separar_empresa_cargo_guion(_): return None, None`. -/
def separarStub (_ : String) : Option String × Option String := (none, none)

/-! ### Experience Reconstructor (`parsear_experiencia`) -/

/-- The in-loop deletion pattern producing `linea_sin_fechas`
(`re.IGNORECASE`), in source alternation order: `\d{2}\s*` dash-or-slash
`\s*\d{4}`; year `[–—\-]?` year; a bare year; a month name. -/
def patronFechasExp : Patron :=
  pAltL
    [pSeq (pRep 2 esDigito) (pSeq (pEstrella pyEsEspacio)
       (pSeq (pClase guionOBarra) (pSeq (pEstrella pyEsEspacio)
         (pRep 4 esDigito)))),
     pSeq pFrontera (pSeq anioPatron (pSeq pFrontera
       (pSeq (pEstrella pyEsEspacio)
         (pSeq (pOpc (pClase (fun c => c = '–' || c = '—' || c = '-')))
           (pSeq (pEstrella pyEsEspacio)
             (pSeq pFrontera (pSeq anioPatron pFrontera))))))),
     patronAnioSolo,
     pSeq pFrontera (pSeq (pAltL (mesesDiccionario.map (fun n => pLitCI n.data)))
       pFrontera)]

/-- Python `re.sub(patron, "", linea)` then `strip` of space, en-dash, em-dash,
dash, slash and comma. -/
def lineaSinFechas (l : List Char) : List Char :=
  pyStripSet [' ', '–', '—', '-', '/', ','] (reSub patronFechasExp l)

structure Trabajo where
  empresa : Option String
  cargo : Option String
  fecha_inicio : Option String
  fecha_fin : Option String
  duracion_meses : Option Int
  responsabilidades : List String
deriving DecidableEq

def trabajoNuevo (e c i f : Option String) : Trabajo :=
  ⟨e, c, i, f, none, []⟩

structure EstadoExp where
  trabajos : List Trabajo
  actual : Option Trabajo
  resp : List String
  anterior : Option String
deriving DecidableEq

/-- The record as pushed by `cerrar_trabajo`: responsibilities attached,
and `duracion_meses` computed exactly when both dates are truthy and
both prefix-match `\d{4}-\d{2}`. -/
def cierraT (ahora : Nat × Nat) (resp : List String) (t : Trabajo) : Trabajo :=
  let t1 := { t with responsabilidades := resp }
  if pyVerdadera t1.fecha_inicio && pyVerdadera t1.fecha_fin
      && coincideYMOpt t1.fecha_inicio && coincideYMOpt t1.fecha_fin then
    { t1 with duracion_meses :=
        calcular_duracion_meses ahora t1.fecha_inicio t1.fecha_fin }
  else t1

/-- Python `cerrar_trabajo()`: a no-op when no record is open; otherwise push
the closed record and reset the pending responsibilities. -/
def cerrar_trabajo (ahora : Nat × Nat) (st : EstadoExp) : EstadoExp :=
  match st.actual with
  | none => st
  | some t =>
    { st with trabajos := st.trabajos ++ [cierraT ahora st.resp t], resp := [] }

/-- Python `re.sub(r"^[\d]+[.\-\)]\s*", "", linea)`: strip a leading enumerator. -/
def quitarEnumerador (l : List Char) : List Char :=
  let ds := l.takeWhile esDigito
  if ds.isEmpty then l
  else
    match l.drop ds.length with
    | c :: resto =>
      if c = '.' || c = '-' || c = ')' then resto.dropWhile pyEsEspacio else l
    | [] => l

/-- One iteration of the `parsear_experiencia` loop on a (non-empty,
stripped) line, mirroring the branch order of the source. -/
def paso (sep : String → Option String × Option String) (ahora : Nat × Nat)
    (st : EstadoExp) (lineaC : List Char) : EstadoExp :=
  let linea := strDe lineaC
  let fe := extraer_fechas_de_linea linea
  let fechas := fe.1
  let esAct := fe.2
  let solo := es_linea_solo_fechas linea
  let sinFechas := lineaSinFechas lineaC
  -- "Empresa - Cargo" special pattern: only tried when the line has no
  -- dates and is not date-only; fires only when both parts are truthy.
  let guion : Option (String × String) :=
    if !solo && fechas.isEmpty then
      match sep linea with
      | (some e, some c) =>
        if !e.data.isEmpty && !c.data.isEmpty then some (e, c) else none
      | _ => none
    else none
  match guion with
  | some (e, c) =>
    let st1 := cerrar_trabajo ahora st
    let nuevo := trabajoNuevo (some e) (some c) none none
    { st1 with actual := some nuevo, anterior := some linea }
  | none =>
    let tieneFechasInline :=
      decide (1 ≤ fechas.length) && !solo && decide (3 < sinFechas.length)
    let esEmpConFechas := tieneFechasInline &&
      (es_probable_empresa (strDe sinFechas) || es_probable_cargo (strDe sinFechas))
    let esBloqueFechas :=
      solo && decide (1 ≤ fechas.length) && st.anterior.isSome
    let st2 :=
      if esEmpConFechas then
        let st1 := cerrar_trabajo ahora st
        let inicio := fechas.head?
        let fin := if 1 < fechas.length then fechas.get? 1
          else if esAct then some "presente" else none
        let nuevo := trabajoNuevo (some (strDe (pyStrip sinFechas))) none inicio fin
        { st1 with actual := some nuevo }
      else if esBloqueFechas then
        let inicio := fechas.head?
        let fin := if 1 < fechas.length then fechas.get? 1
          else if esAct then some "presente" else none
        match st.actual with
        | none =>
          let st1 := cerrar_trabajo ahora st
          { st1 with actual := some (trabajoNuevo none none inicio fin) }
        | some t =>
          let t1 := if pyVerdadera t.fecha_inicio then t
            else { t with fecha_inicio := inicio }
          let finOr : Option String :=
            match fin with
            | some s =>
              if s.data.isEmpty then (if esAct then some "presente" else none)
              else some s
            | none => if esAct then some "presente" else none
          let t2 := if pyVerdadera t1.fecha_fin then t1
            else { t1 with fecha_fin := finOr }
          let t3 :=
            match st.anterior with
            | some la =>
              if !la.data.isEmpty && es_probable_cargo la && !pyVerdadera t2.cargo
              then { t2 with cargo := some la } else t2
            | none => t2
          { st with actual := some t3 }
      else if es_probable_cargo linea && !solo then
        match st.actual with
        | some t =>
          if !pyVerdadera t.cargo then
            let t1 :=
              match st.anterior with
              | some la =>
                if !pyVerdadera t.empresa && !la.data.isEmpty
                    && !es_linea_solo_fechas la && !es_probable_cargo la
                then { t with empresa := some la } else t
              | none => t
            { st with actual := some { t1 with cargo := some linea } }
          else
            let st1 := cerrar_trabajo ahora st
            { st1 with actual := some (trabajoNuevo none (some linea) none none) }
        | none =>
          { st with actual := some (trabajoNuevo none (some linea) none none) }
      else
        match st.actual with
        | some t =>
          if solo then st
          else if !pyVerdadera t.empresa && !pyVerdadera t.cargo
              && lineaC.length < 70 then
            { st with actual := some { t with empresa := some linea } }
          else if !pyVerdadera t.empresa && pyVerdadera t.cargo
              && es_probable_empresa linea then
            { st with actual := some { t with empresa := some linea } }
          else
            let r := pyStripSet ['•', '-', '–', ' '] (quitarEnumerador lineaC)
            if !r.isEmpty && 8 < r.length then
              { st with resp := st.resp ++ [strDe r] }
            else st
        | none => st
    { st2 with anterior := some linea }

/-- Python `parsear_experiencia(texto)`, parameterised by the
`separar_empresa_cargo_guion` collaborator and the wall clock.  With
spaCy unavailable `enriquecer_trabajos_con_nlp` is the identity, so the
final enrichment step is a no-op. -/
def parsear_experiencia (sep : String → Option String × Option String)
    (ahora : Nat × Nat) (texto : String) : List Trabajo :=
  if esBlanca texto.data then []
  else
    let lineas := ((pySplitLineas texto.data).map pyStrip).filter
      (fun l => !l.isEmpty)
    let stFinal := cerrar_trabajo ahora
      (lineas.foldl (paso sep ahora) ⟨[], none, [], none⟩)
    stFinal.trabajos.filter (fun t => pyVerdadera t.cargo || pyVerdadera t.empresa)

/-! ### Section Segmenter (`es_encabezado`, `dividir_secciones`,
seccionesHV_nlp.py) -/

/-- Python `\b(perfil|resumen|sobre\s*m[ií]|acerca\s*de)\b`. -/
def patronPerfil : Patron :=
  pSeq pFrontera (pSeq (pAltL
    [pLit "perfil".data, pLit "resumen".data,
     pSeq (pLit "sobre".data) (pSeq (pEstrella pyEsEspacio)
       (pSeq (pLit "m".data) (pClase (fun c => c = 'i' || c = 'í')))),
     pSeq (pLit "acerca".data) (pSeq (pEstrella pyEsEspacio) (pLit "de".data))])
    pFrontera)

/-- Python `(laboral(es)?|profesional(es)?)`. -/
def patronLabProf : Patron :=
  pAlt (pSeq (pLit "laboral".data) (pOpc (pLit "es".data)))
       (pSeq (pLit "profesional".data) (pOpc (pLit "es".data)))

/-- Python `\b(experiencias?\s*(laboral(es)?|profesional(es)?)?|experencias?\s*(...)?|trayectoria|historial\s*laboral)\b`. -/
def patronExperiencia : Patron :=
  pSeq pFrontera (pSeq (pAltL
    [pSeq (pLit "experiencia".data) (pSeq (pOpc (pClase (fun c => c = 's')))
       (pSeq (pEstrella pyEsEspacio) (pOpc patronLabProf))),
     pSeq (pLit "experencia".data) (pSeq (pOpc (pClase (fun c => c = 's')))
       (pSeq (pEstrella pyEsEspacio) (pOpc patronLabProf))),
     pLit "trayectoria".data,
     pSeq (pLit "historial".data) (pSeq (pEstrella pyEsEspacio)
       (pLit "laboral".data))]) pFrontera)

/-- Python `\b(educaci[oó]n|formaci[oó]n|estudios|t[íi]tulos?|acad[eé]mica)\b`. -/
def patronEducacion : Patron :=
  pSeq pFrontera (pSeq (pAltL
    [pSeq (pLit "educaci".data) (pSeq (pClase (fun c => c = 'o' || c = 'ó'))
       (pLit "n".data)),
     pSeq (pLit "formaci".data) (pSeq (pClase (fun c => c = 'o' || c = 'ó'))
       (pLit "n".data)),
     pLit "estudios".data,
     pSeq (pLit "t".data) (pSeq (pClase (fun c => c = 'í' || c = 'i'))
       (pSeq (pLit "tulo".data) (pOpc (pClase (fun c => c = 's'))))),
     pSeq (pLit "acad".data) (pSeq (pClase (fun c => c = 'e' || c = 'é'))
       (pLit "mica".data))]) pFrontera)

/-- Python `\b(habilidades|competencias|destrezas|conocimientos|skills)\b`. -/
def patronHabilidades : Patron :=
  pSeq pFrontera (pSeq (pAltL
    [pLit "habilidades".data, pLit "competencias".data, pLit "destrezas".data,
     pLit "conocimientos".data, pLit "skills".data]) pFrontera)

/-- Python `^(cursos?|certificaciones?|diplomados?|capacitaciones?)[\s:]*$`
(anchored; used with `re.search`, which with `^` only matches at the
start). -/
def patronCursos : Patron :=
  pSeq (pAltL
    [pSeq (pLit "curso".data) (pOpc (pClase (fun c => c = 's'))),
     pSeq (pLit "certificacion".data) (pOpc (pLit "es".data)),
     pSeq (pLit "diplomado".data) (pOpc (pClase (fun c => c = 's'))),
     pSeq (pLit "capacitacion".data) (pOpc (pLit "es".data))])
    (pSeq (pEstrella (fun c => pyEsEspacio c || c = ':')) pFin)

/-- Python `\b(referencias?|referencia\s*personal)\b`. -/
def patronReferencias : Patron :=
  pSeq pFrontera (pSeq (pAltL
    [pSeq (pLit "referencia".data) (pOpc (pClase (fun c => c = 's'))),
     pSeq (pLit "referencia".data) (pSeq (pEstrella pyEsEspacio)
       (pLit "personal".data))]) pFrontera)

/-- Python `\b(contacto|datos\s*personales?|informaci[oó]n\s*personal)\b`. -/
def patronContacto : Patron :=
  pSeq pFrontera (pSeq (pAltL
    [pLit "contacto".data,
     pSeq (pLit "datos".data) (pSeq (pEstrella pyEsEspacio)
       (pSeq (pLit "personale".data) (pOpc (pClase (fun c => c = 's'))))),
     pSeq (pLit "informaci".data) (pSeq (pClase (fun c => c = 'o' || c = 'ó'))
       (pSeq (pLit "n".data) (pSeq (pEstrella pyEsEspacio)
         (pLit "personal".data))))]) pFrontera)

/-- Python `es_encabezado(linea)`: strip, length guard, lower-case, then the
seven header patterns in the `ENCABEZADOS` dictionary order. -/
def es_encabezado (linea : String) : Option String :=
  let limpia := pyStrip linea.data
  if limpia.isEmpty || 80 < limpia.length then none
  else
    let baja := pyMinusculas limpia
    if (reSearch patronPerfil baja).isSome then some "perfil"
    else if (reSearch patronExperiencia baja).isSome then some "experiencia"
    else if (reSearch patronEducacion baja).isSome then some "educacion"
    else if (reSearch patronHabilidades baja).isSome then some "habilidades"
    else if (reMatch patronCursos baja).isSome then some "cursos"
    else if (reSearch patronReferencias baja).isSome then some "referencias"
    else if (reSearch patronContacto baja).isSome then some "contacto"
    else none

structure Secciones where
  perfil : String
  experiencia : String
  educacion : String
  habilidades : String
  cursos : String
  referencias : String
deriving DecidableEq

/-- Python `SECCIONES_PRINCIPALES`. -/
def principales : List String :=
  ["perfil", "experiencia", "educacion", "habilidades", "cursos", "referencias"]

structure AcumSec where
  actual : String
  perfil : List (List Char)
  experiencia : List (List Char)
  educacion : List (List Char)
  habilidades : List (List Char)
  cursos : List (List Char)
  referencias : List (List Char)
deriving DecidableEq

def acumGet (a : AcumSec) : List (List Char) :=
  if a.actual = "perfil" then a.perfil
  else if a.actual = "experiencia" then a.experiencia
  else if a.actual = "educacion" then a.educacion
  else if a.actual = "habilidades" then a.habilidades
  else if a.actual = "cursos" then a.cursos
  else a.referencias

def acumAppend (a : AcumSec) (l : List Char) : AcumSec :=
  if a.actual = "perfil" then { a with perfil := a.perfil ++ [l] }
  else if a.actual = "experiencia" then { a with experiencia := a.experiencia ++ [l] }
  else if a.actual = "educacion" then { a with educacion := a.educacion ++ [l] }
  else if a.actual = "habilidades" then { a with habilidades := a.habilidades ++ [l] }
  else if a.actual = "cursos" then { a with cursos := a.cursos ++ [l] }
  else { a with referencias := a.referencias ++ [l] }

/-- The non-header part of one segmentation step: skip a blank line when
the current section's accumulator is still empty, else append. -/
def restoSeccion (a : AcumSec) (linea : List Char) : AcumSec :=
  if esBlanca linea && (acumGet a).isEmpty then a else acumAppend a linea

def pasoSeccion (a : AcumSec) (linea : List Char) : AcumSec :=
  match es_encabezado (strDe linea) with
  | some s =>
    if principales.contains s then { a with actual := s }
    else restoSeccion a linea
  | none => restoSeccion a linea

/-- Python `dividir_secciones(texto)`: header-driven state machine starting in
`perfil`; header lines are dropped; each section is joined and stripped. -/
def dividir_secciones (texto : String) : Secciones :=
  let fin := (pySplitLineas texto.data).foldl pasoSeccion
    ⟨"perfil", [], [], [], [], [], []⟩
  { perfil := strDe (pyStrip (unirLineas fin.perfil)),
    experiencia := strDe (pyStrip (unirLineas fin.experiencia)),
    educacion := strDe (pyStrip (unirLineas fin.educacion)),
    habilidades := strDe (pyStrip (unirLineas fin.habilidades)),
    cursos := strDe (pyStrip (unirLineas fin.cursos)),
    referencias := strDe (pyStrip (unirLineas fin.referencias)) }

/-! ### Education, skills, courses, contact extractors -/

/-- Python `\b(19|20)\d{2}\b` (note: `19` before `20` in this one). -/
def patronAnioEdu : Patron :=
  pSeq pFrontera (pSeq (pAlt (pLit ['1', '9']) (pLit ['2', '0']))
    (pSeq (pRep 2 esDigito) pFrontera))

/-- An education entry; a missing dictionary key is modelled as `none`. -/
structure Entrada where
  titulo : Option String
  institucion : Option String
  anio : Option String
deriving DecidableEq

def institucionesKeywords : List String :=
  ["universidad", "corporacion", "corporación", "instituto", "colegio",
   "sena", "escuela", "politecnico"]

def titulosKeywords : List String :=
  ["contador", "administrador", "ingeniero", "licenciado", "tecnico",
   "tecnólogo", "diplomado", "especialista", "magister"]

/-- One line of `parsear_educacion`'s loop; the running entry is `none`
while the Python dict is still the falsy `{}`. -/
def pasoEducacion (st : List Entrada × Option Entrada) (lineaC : List Char) :
    List Entrada × Option Entrada :=
  let anio := reSearch patronAnioEdu lineaC
  let lineaBaja := pyMinusculas lineaC
  let esInstitucion := institucionesKeywords.any (fun k => contiene k lineaBaja)
  let esTitulo := titulosKeywords.any (fun k => contiene k lineaBaja)
  match anio with
  | some (_, emp, _) =>
    if !esInstitucion then
      let empujadas :=
        match st.2 with
        | some e => st.1 ++ [e]
        | none => st.1
      (empujadas, some ⟨none, none, some (strDe emp)⟩)
    else
      if esTitulo && !pyVerdadera ((st.2.getD ⟨none, none, none⟩).titulo) then
        let e := st.2.getD ⟨none, none, none⟩
        (st.1, some { e with titulo := some (strDe lineaC) })
      else if esInstitucion
          && !pyVerdadera ((st.2.getD ⟨none, none, none⟩).institucion) then
        let e := st.2.getD ⟨none, none, none⟩
        (st.1, some { e with institucion := some (strDe lineaC) })
      else st
  | none =>
    if esTitulo && !pyVerdadera ((st.2.getD ⟨none, none, none⟩).titulo) then
      let e := st.2.getD ⟨none, none, none⟩
      (st.1, some { e with titulo := some (strDe lineaC) })
    else if esInstitucion
        && !pyVerdadera ((st.2.getD ⟨none, none, none⟩).institucion) then
      let e := st.2.getD ⟨none, none, none⟩
      (st.1, some { e with institucion := some (strDe lineaC) })
    else st

/-- Python `parsear_educacion(texto)`. -/
def parsear_educacion (texto : String) : List Entrada :=
  if esBlanca texto.data then []
  else
    let lineas := ((pySplitLineas texto.data).map pyStrip).filter
      (fun l => !l.isEmpty)
    let fin := lineas.foldl pasoEducacion ([], none)
    match fin.2 with
    | some e => fin.1 ++ [e]
    | none => fin.1

/-- The separator class of `parsear_habilidades`:
`re.split(r"[\n,;•\-]", texto)`. -/
def esSeparadorHab (c : Char) : Bool :=
  c = '\n' || c = ',' || c = ';' || c = '•' || c = '-'

def pySplitClase (f : Char → Bool) : List Char → List (List Char)
  | [] => [[]]
  | c :: resto =>
    if f c then [] :: pySplitClase f resto
    else
      match pySplitClase f resto with
      | h :: t => (c :: h) :: t
      | [] => [[c]]

/-- Python `parsear_habilidades(texto)` (and `parsear_cursos`, same logic). -/
def parsear_habilidades (texto : String) : List String :=
  if esBlanca texto.data then []
  else
    ((pySplitClase esSeparadorHab texto.data).filter
      (fun i => 2 < (pyStrip i).length)).map
      (fun i => strDe (pyCapitalizar (pyStrip i)))

def parsear_cursos (texto : String) : List String := parsear_habilidades texto

def esAsciiAlfaNum (c : Char) : Bool :=
  ('a' ≤ c && c ≤ 'z') || ('A' ≤ c && c ≤ 'Z') || esDigito c

def claseEmailLocal (c : Char) : Bool :=
  esAsciiAlfaNum c || c = '.' || c = '_' || c = '%' || c = '+' || c = '-'

def claseEmailDominio (c : Char) : Bool :=
  esAsciiAlfaNum c || c = '.' || c = '-'

def esAsciiLetra (c : Char) : Bool :=
  ('a' ≤ c && c ≤ 'z') || ('A' ≤ c && c ≤ 'Z')

/-- Python `[a-zA-Z0-9._%+\-]+@[a-zA-Z0-9.\-]+\.[a-zA-Z]{2,}`. -/
def patronEmail : Patron :=
  pSeq (pMas claseEmailLocal) (pSeq (pClase (fun c => c = '@'))
    (pSeq (pMas claseEmailDominio) (pSeq (pClase (fun c => c = '.'))
      (pRepMin 2 esAsciiLetra))))

/-- The separator class of the phone pattern and of the normalising
`re.sub(r"[-\s]", "", ...)`. -/
def esSepTel (c : Char) : Bool := c = '-' || pyEsEspacio c

/-- Python `\b3\d{2}[-\s]?\d{3}[-\s]?\d{2}[-\s]?\d{2}\b`. -/
def patronTelefono : Patron :=
  pSeq pFrontera (pSeq (pClase (fun c => c = '3')) (pSeq (pRep 2 esDigito)
    (pSeq (pOpc (pClase esSepTel)) (pSeq (pRep 3 esDigito)
      (pSeq (pOpc (pClase esSepTel)) (pSeq (pRep 2 esDigito)
        (pSeq (pOpc (pClase esSepTel)) (pSeq (pRep 2 esDigito) pFrontera))))))))

/-- A contact record; an absent dictionary key is modelled as `none`. -/
structure Contacto where
  email : Option String
  telefono : Option String
deriving DecidableEq

/-- Python `parsear_contacto_desde_perfil(texto_completo)`. -/
def parsear_contacto_desde_perfil (texto : String) : Contacto :=
  let correo : Option String :=
    match reSearch patronEmail texto.data with
    | some (_, emp, _) => some (strDe emp)
    | none => none
  let tel : Option String :=
    match reSearch patronTelefono texto.data with
    | some (_, emp, _) => some (strDe (emp.filter (fun c => !esSepTel c)))
    | none => none
  ⟨correo, tel⟩

/-! ### Skill matching (`extraer_skills_del_texto`, with
`limpiar_para_comparacion` from limpiar.py) -/

def SKILLS_TECNICAS : List String :=
  ["niif", "ifrs", "nia", "nias", "excel", "sap", "siigo", "world office",
   "contaplus", "sql", "power bi", "tableau", "iso 14001", "iso 9001",
   "coso", "cobit", "auditoria", "contabilidad", "tributaria", "nomina",
   "presupuesto", "tesoreria", "cartera", "costos", "gestion de riesgos"]

def SKILLS_BLANDAS : List String :=
  ["liderazgo", "comunicacion", "trabajo en equipo", "analitico", "etica",
   "proactividad", "organizacion", "resolucion de problemas", "adaptabilidad"]

/-- NFKD then `encode("ascii", "ignore")` on one character, over the
modelled repertoire: accents fold to the base letter, other non-ASCII
characters are dropped. -/
def plegarAscii (c : Char) : List Char :=
  if c.toNat < 128 then [c]
  else if c = 'á' || c = 'Á' then ['a']
  else if c = 'é' || c = 'É' then ['e']
  else if c = 'í' || c = 'Í' then ['i']
  else if c = 'ó' || c = 'Ó' then ['o']
  else if c = 'ú' || c = 'Ú' then ['u']
  else if c = 'ü' || c = 'Ü' then ['u']
  else if c = 'ñ' || c = 'Ñ' then ['n']
  else []

/-- Python `re.sub(r"\s+", " ", t)`: collapse whitespace runs to one space. -/
def colapsarAux : Bool → List Char → List Char
  | _, [] => []
  | enEspacio, c :: resto =>
    if pyEsEspacio c then
      if enEspacio then colapsarAux true resto
      else ' ' :: colapsarAux true resto
    else c :: colapsarAux false resto

def colapsarEspacios (l : List Char) : List Char := colapsarAux false l

/-- Python `limpiar_para_comparacion(texto)`: ascii-fold, lower-case, replace
non-word non-space characters by a space, collapse whitespace, strip.
The ascii fold leaves 'Á' folded before lower-casing, matching Python's
NFKD-then-ascii-then-lower pipeline. -/
def limpiar_para_comparacion (texto : String) : List Char :=
  let t := (texto.data.map plegarAscii).flatten
  let t := pyMinusculas t
  let t := t.map (fun c =>
    if esCaracterPalabra c || pyEsEspacio c then c else ' ')
  pyStrip (colapsarEspacios t)

structure Skills where
  tecnicas : List String
  blandas : List String
deriving DecidableEq

/-- Python `extraer_skills_del_texto(texto_completo)`. -/
def extraer_skills_del_texto (texto : String) : Skills :=
  let norm := limpiar_para_comparacion texto
  ⟨(SKILLS_TECNICAS.filter (fun s => contiene s norm)).map
     (fun s => strDe (pyMayusculas s.data)),
   (SKILLS_BLANDAS.filter (fun s => contiene s norm)).map
     (fun s => strDe (pyCapitalizar s.data))⟩

/-! ### Derived totals and the main entry point (`estructurar_cv`) -/

/-- Round half to even at integer precision (Python `round` on the exact
value; the model works in rationals rather than IEEE doubles). -/
def redondeoMedioAPar (q : Rat) : Int :=
  let f := ⌊q⌋
  let r := q - (f : Rat)
  if r < 1 / 2 then f
  else if 1 / 2 < r then f + 1
  else if f % 2 = 0 then f else f + 1

/-- Python `round(x, 1)`. -/
def pyRound1 (q : Rat) : Rat := (redondeoMedioAPar (q * 10) : Rat) / 10

/-- Python `calcular_años_experiencia(trabajos)`: `t.get("duracion_meses") or 0`
summed, divided by 12, rounded to one decimal. -/
def calcular_anios_experiencia (trabajos : List Trabajo) : Rat :=
  let totalMeses : Int := (trabajos.map (fun t => t.duracion_meses.getD 0)).sum
  pyRound1 ((totalMeses : Rat) / 12)

/-- The `StructuredResume` returned by `estructurar_cv`. -/
structure Resultado where
  contacto : Contacto
  perfil_resumen : String
  experiencia : List Trabajo
  educacion : List Entrada
  habilidades : List String
  skills_detectadas : Skills
  cursos : List String
  referencias : String
  anios_experiencia_total : Rat
  cantidad_empleos : Nat
deriving DecidableEq

/-- Python `estructurar_cv(secciones, texto_completo)`.  The sections dict is
modelled as a record whose fields are `""` when the key is absent
(matching `secciones.get(k, "")`).  The optional collaborator `sep` and
the wall clock `ahora` are threaded to the experience reconstructor. -/
def estructurar_cv (sep : String → Option String × Option String)
    (ahora : Nat × Nat) (secciones : Secciones) (texto_completo : String) :
    Resultado :=
  let experiencia := parsear_experiencia sep ahora secciones.experiencia
  { contacto := parsear_contacto_desde_perfil texto_completo,
    perfil_resumen := strDe (pyStrip secciones.perfil.data),
    experiencia := experiencia,
    educacion := parsear_educacion secciones.educacion,
    habilidades := parsear_habilidades secciones.habilidades,
    skills_detectadas := extraer_skills_del_texto texto_completo,
    cursos := parsear_cursos secciones.cursos,
    referencias := strDe (pyStrip secciones.referencias.data),
    anios_experiencia_total := calcular_anios_experiencia experiencia,
    cantidad_empleos := experiencia.length }

/-! ## Supporting lemmas -/

theorem lexMenor_asimetrica : ∀ a b, lexMenor a b = true → lexMenor b a = false := by
  intro a
  induction a with
  | nil =>
    intro b h
    cases b with
    | nil => simp [lexMenor] at h
    | cons c t => simp [lexMenor]
  | cons x xs ih =>
    intro b h
    cases b with
    | nil => simp [lexMenor] at h
    | cons y ys =>
      simp only [lexMenor] at h ⊢
      by_cases h1 : x.toNat < y.toNat
      · have h2 : ¬ y.toNat < x.toNat := by omega
        simp [h1, h2]
      · by_cases h2 : y.toNat < x.toNat
        · simp [h1, h2] at h
        · simp only [h1, h2, if_false] at h ⊢
          exact ih ys h

theorem pyDedupAux_sublist : ∀ (l vistos : List String),
    List.Sublist (pyDedupAux l vistos) l := by
  intro l
  induction l with
  | nil => intro vistos; simp [pyDedupAux]
  | cons a t ih =>
    intro vistos
    simp only [pyDedupAux]
    split
    · exact (ih vistos).cons a
    · exact (ih (a :: vistos)).cons₂ a

theorem pyDedupAux_fuera : ∀ (l vistos : List String) (x : String),
    x ∈ pyDedupAux l vistos → x ∉ vistos := by
  intro l
  induction l with
  | nil => intro vistos x hx; simp [pyDedupAux] at hx
  | cons a t ih =>
    intro vistos x hx
    simp only [pyDedupAux] at hx
    split at hx
    · exact ih vistos x hx
    · rcases List.mem_cons.mp hx with rfl | hx2
      · assumption
      · intro hv
        exact (ih (a :: vistos) x hx2) (List.mem_cons_of_mem a hv)

theorem pyDedupAux_nodup : ∀ (l vistos : List String),
    (pyDedupAux l vistos).Nodup := by
  intro l
  induction l with
  | nil => intro vistos; simp [pyDedupAux]
  | cons a t ih =>
    intro vistos
    simp only [pyDedupAux]
    split
    · exact ih vistos
    · refine List.nodup_cons.mpr ⟨?_, ih (a :: vistos)⟩
      intro hmem
      exact (pyDedupAux_fuera t (a :: vistos) a hmem) (List.mem_cons_self a vistos)

theorem pyDedup_nodup (l : List String) : (pyDedup l).Nodup :=
  pyDedupAux_nodup l []

theorem pyDedup_sublist (l : List String) : List.Sublist (pyDedup l) l :=
  pyDedupAux_sublist l []

theorem isEmpty_de_ne {α : Type} {l : List α} (h : l ≠ []) :
    l.isEmpty = false := by
  cases l with
  | nil => exact absurd rfl h
  | cons a t => rfl

/-- The token list returned by the extractor is the chronological fix-up
of the winning pattern class (used to state the priority claims). -/
theorem extraer_tokens (linea : String) :
    (extraer_fechas_de_linea linea).1 =
      ordenCronologico
        (if (pat0 linea.data).isEmpty = false then pat0 linea.data
         else if (pat0b linea.data).isEmpty = false then pat0b linea.data
         else if (pat1 linea.data).isEmpty = false then pat1 linea.data
         else if (pat2 (pyMinusculas linea.data)).isEmpty = false then
           pat2 (pyMinusculas linea.data)
         else pyDedup (pat3 linea.data)) := by
  simp only [extraer_fechas_de_linea]
  rcases h0 : (pat0 linea.data).isEmpty with _ | _ <;>
    rcases h0b : (pat0b linea.data).isEmpty with _ | _ <;>
      rcases h1 : (pat1 linea.data).isEmpty with _ | _ <;>
        rcases h2 : (pat2 (pyMinusculas linea.data)).isEmpty with _ | _ <;>
          simp [h0, h0b, h1, h2]

/-! ## Claims -/

/-- C1 (counterexample): on the line `"2025 - 2023"` the extractor
returns exactly two canonical tokens — the bare years `"2025"`,
`"2023"` — in descending lexicographic order, so the `start ≤ end`
invariant does not hold for every token shape. -/
theorem claim_C1_counterexample :
    extraer_fechas_de_linea "2025 - 2023" = (["2025", "2023"], false) ∧
    pyMenorStr "2023" "2025" = true := by
  exact ⟨by decide, by decide⟩

/-- C1 (amended): whenever the extractor returns exactly two tokens and
both are canonical year-month tokens (prefix `\d{4}-\d{2}`), they are in
chronological order (`start ≤ end` lexicographically, i.e. the second is
not below the first).  Two bare-year tokens are exempt: the swap guard
requires the year-month shape. -/
theorem claim_C1 (linea : String) (a b : String)
    (h : (extraer_fechas_de_linea linea).1 = [a, b])
    (ha : coincideYMStr a = true) (hb : coincideYMStr b = true) :
    pyMenorStr b a = false := by
  have htk := extraer_tokens linea
  rw [h] at htk
  set l := (if (pat0 linea.data).isEmpty = false then pat0 linea.data
         else if (pat0b linea.data).isEmpty = false then pat0b linea.data
         else if (pat1 linea.data).isEmpty = false then pat1 linea.data
         else if (pat2 (pyMinusculas linea.data)).isEmpty = false then
           pat2 (pyMinusculas linea.data)
         else pyDedup (pat3 linea.data)) with hl
  clear_value l
  match l, htk with
  | [x, y], htk =>
    simp only [ordenCronologico] at htk
    split at htk
    · next hcond =>
      -- swapped: the pair was descending, result is [y, x]
      obtain ⟨rfl, rfl⟩ : a = y ∧ b = x := by
        injection htk with h1 h2
        injection h2 with h2 _
        exact ⟨h1, h2⟩
      have := (Bool.and_eq_true _ _).mp hcond
      exact lexMenor_asimetrica _ _ this.2
    · next hcond =>
      obtain ⟨rfl, rfl⟩ : a = x ∧ b = y := by
        injection htk with h1 h2
        injection h2 with h2 _
        exact ⟨h1, h2⟩
      rcases hmen : pyMenorStr b a with _ | _
      · rfl
      · exact absurd (by simp [ha, hb, hmen]) hcond

/-- C1 (witness for the amended claim): the line `"12-2025  04-2025"`
yields the two year-month tokens swapped into chronological order. -/
theorem claim_C1_witness : pyMenorStr "2025-12" "2025-04" = false :=
  claim_C1 "12-2025  04-2025" "2025-04" "2025-12" (by decide) (by decide)
    (by decide)

/-- C4: the five pattern classes are tried in fixed priority order and
the first class producing at least one match determines the whole output
(up to the final chronological swap); in the bare-year class the years
are deduplicated preserving first-seen order (no duplicates, and a
sublist of the raw year occurrences). -/
theorem claim_C4 (linea : String) :
    (pat0 linea.data ≠ [] →
      (extraer_fechas_de_linea linea).1 = ordenCronologico (pat0 linea.data)) ∧
    (pat0 linea.data = [] → pat0b linea.data ≠ [] →
      (extraer_fechas_de_linea linea).1 = ordenCronologico (pat0b linea.data)) ∧
    (pat0 linea.data = [] → pat0b linea.data = [] → pat1 linea.data ≠ [] →
      (extraer_fechas_de_linea linea).1 = ordenCronologico (pat1 linea.data)) ∧
    (pat0 linea.data = [] → pat0b linea.data = [] → pat1 linea.data = [] →
      pat2 (pyMinusculas linea.data) ≠ [] →
      (extraer_fechas_de_linea linea).1 =
        ordenCronologico (pat2 (pyMinusculas linea.data))) ∧
    (pat0 linea.data = [] → pat0b linea.data = [] → pat1 linea.data = [] →
      pat2 (pyMinusculas linea.data) = [] →
      (extraer_fechas_de_linea linea).1 =
        ordenCronologico (pyDedup (pat3 linea.data)) ∧
      (pyDedup (pat3 linea.data)).Nodup ∧
      List.Sublist (pyDedup (pat3 linea.data)) (pat3 linea.data)) := by
  have htk := extraer_tokens linea
  refine ⟨?_, ?_, ?_, ?_, ?_⟩
  · intro h0
    rwa [if_pos (isEmpty_de_ne h0)] at htk
  · intro h0 h0b
    rw [h0] at htk
    rwa [if_neg (by simp), if_pos (isEmpty_de_ne h0b)] at htk
  · intro h0 h0b h1
    rw [h0, h0b] at htk
    rwa [if_neg (by simp), if_neg (by simp), if_pos (isEmpty_de_ne h1)] at htk
  · intro h0 h0b h1 h2
    rw [h0, h0b, h1] at htk
    rwa [if_neg (by simp), if_neg (by simp), if_neg (by simp),
      if_pos (isEmpty_de_ne h2)] at htk
  · intro h0 h0b h1 h2
    rw [h0, h0b, h1, h2] at htk
    rw [if_neg (by simp), if_neg (by simp), if_neg (by simp),
      if_neg (by simp)] at htk
    exact ⟨htk, pyDedup_nodup _, pyDedup_sublist _⟩

/-- C4 (witness): on `"2023 2024 2023"` the four higher classes are
empty and the output is the deduplicated bare years in first-seen order. -/
theorem claim_C4_witness :
    (extraer_fechas_de_linea "2023 2024 2023").1 = ["2023", "2024"] := by
  have h := (claim_C4 "2023 2024 2023").2.2.2.2 (by decide) (by decide)
    (by decide) (by decide)
  rw [h.1]
  decide

/-- C5 (counterexample): with start `"2025-01"` and the end the empty
string — which is not in `YYYY-MM` form and is not the ongoing marker —
the calculator does not return `None`: the falsy end is resolved to the
current month (here `(2026, 1)`), giving `12`. -/
theorem claim_C5_counterexample :
    calcular_duracion_meses (2026, 1) (some "2025-01") (some "") = some 12 ∧
    parseYM "" = none ∧ ("" : String) ≠ "presente" := by
  exact ⟨by decide, by decide, by decide⟩

/-- A string accepted by `parseYM` has six or seven characters. -/
theorem parseYM_largo (s : String) (ym : Nat × Nat) (h : parseYM s = some ym) :
    s.data.length = 6 ∨ s.data.length = 7 := by
  unfold parseYM at h
  split at h
  · next heq => left; rw [heq]; rfl
  · next heq => right; rw [heq]; rfl
  · exact absurd h (by simp)

/-- A string accepted by `parseYM` is non-empty and is not the ongoing
marker `"presente"` (in any case variant). -/
theorem parseYM_no_abierto (s : String) (ym : Nat × Nat)
    (h : parseYM s = some ym) :
    s.data.isEmpty = false ∧ (pyMinusculas s.data = "presente".data) = False := by
  have hlen := parseYM_largo s ym h
  constructor
  · rcases hd : s.data with _ | ⟨c, t⟩
    · rw [hd] at hlen; simp at hlen
    · rfl
  · simp only [eq_iff_iff, iff_false]
    intro hcontra
    have h8 : s.data.length = 8 := by
      have := congrArg List.length hcontra
      simpa [pyMinusculas] using this
    omega

/-- Any numeric result of the duration calculator is non-negative. -/
theorem calcular_no_negativo (ahora : Nat × Nat) (inicio fin : Option String)
    (n : Int) (h : calcular_duracion_meses ahora inicio fin = some n) :
    0 ≤ n := by
  cases inicio with
  | none => simp [calcular_duracion_meses] at h
  | some ini =>
    cases hp : parseYM ini with
    | none => simp [calcular_duracion_meses, hp] at h
    | some ym =>
      obtain ⟨yi, mi⟩ := ym
      simp only [calcular_duracion_meses, hp] at h
      split at h
      · simp at h
      · cases h
        exact le_max_left 0 _

/-- C5 (amended): the calculator returns
`max 0 ((end.year - start.year) * 12 + (end.month - start.month))` when
both inputs parse as `YYYY-MM`; an end that is `None`, empty, or equals
`"presente"` case-insensitively (the ongoing marker **or any falsy
end**) resolves to the current calendar month; it returns `None` when
the start does not parse, or when a truthy non-marker end does not
parse; and every numeric result is non-negative. -/
theorem claim_C5 (ahora : Nat × Nat) (inicio fin : Option String) :
    (∀ n, calcular_duracion_meses ahora inicio fin = some n → 0 ≤ n) ∧
    (inicio.bind parseYM = none →
      calcular_duracion_meses ahora inicio fin = none) ∧
    (∀ ys ms yt mt, inicio.bind parseYM = some (ys, ms) →
      fin.bind parseYM = some (yt, mt) →
      calcular_duracion_meses ahora inicio fin =
        some (max 0 (((yt : Int) - (ys : Int)) * 12
          + ((mt : Int) - (ms : Int))))) ∧
    (∀ ys ms, inicio.bind parseYM = some (ys, ms) → esFinAbierto fin = true →
      calcular_duracion_meses ahora inicio fin =
        some (max 0 (((ahora.1 : Int) - (ys : Int)) * 12
          + ((ahora.2 : Int) - (ms : Int))))) ∧
    (∀ ys ms t, inicio.bind parseYM = some (ys, ms) → fin = some t →
      esFinAbierto fin = false → parseYM t = none →
      calcular_duracion_meses ahora inicio fin = none) := by
  refine ⟨calcular_no_negativo ahora inicio fin, ?_, ?_, ?_, ?_⟩
  · intro h
    cases inicio with
    | none => rfl
    | some ini =>
      simp only [Option.some_bind] at h
      simp [calcular_duracion_meses, h]
  · intro ys ms yt mt hi hf
    cases inicio with
    | none => simp at hi
    | some ini =>
      cases fin with
      | none => simp at hf
      | some f =>
        simp only [Option.some_bind] at hi hf
        obtain ⟨hfe, hfp⟩ := parseYM_no_abierto f _ hf
        simp [calcular_duracion_meses, hi, hfe, hfp, hf]
  · intro ys ms hi hab
    cases inicio with
    | none => simp at hi
    | some ini =>
      simp only [Option.some_bind] at hi
      cases fin with
      | none => simp [calcular_duracion_meses, hi]
      | some f =>
        simp only [esFinAbierto, Bool.or_eq_true] at hab
        by_cases he : f.data.isEmpty = true
        · simp [calcular_duracion_meses, hi, he]
        · have hp : pyMinusculas f.data = "presente".data := by
            rcases hab with hab | hab
            · exact absurd hab he
            · exact of_decide_eq_true hab
          simp [calcular_duracion_meses, hi, he, hp]
  · intro ys ms t hi hft hab hpt
    cases inicio with
    | none => simp at hi
    | some ini =>
      simp only [Option.some_bind] at hi
      subst hft
      simp only [esFinAbierto, Bool.or_eq_false_iff] at hab
      have hne := of_decide_eq_false hab.2
      simp [calcular_duracion_meses, hi, hab.1, hne, hpt]

/-- C5 (witness): both dates parse, giving the formula's value. -/
theorem claim_C5_witness :
    calcular_duracion_meses (2026, 1) (some "2025-04") (some "2025-12") =
      some (max 0 (((2025 : Int) - 2025) * 12 + ((12 : Int) - 4))) :=
  (claim_C5 (2026, 1) (some "2025-04") (some "2025-12")).2.2.1 2025 4 2025 12
    (by decide) (by decide)

/-- C9: the extractor emits a `YYYY-MM` token for any two-digit month
field without validating the month — `"99-2025"` yields `"2025-99"` —
and the duration calculator is total over such tokens: it returns `none`
on the unparseable token (never raising), and in general returns either
`none` or a non-negative integer. -/
theorem claim_C9 :
    extraer_fechas_de_linea "99-2025" = (["2025-99"], false) ∧
    calcular_duracion_meses (2025, 1) (some "2025-99") (some "2025-12") = none ∧
    ∀ (ahora : Nat × Nat) (inicio fin : Option String),
      calcular_duracion_meses ahora inicio fin = none ∨
      ∃ n : Int, calcular_duracion_meses ahora inicio fin = some n ∧ 0 ≤ n := by
  refine ⟨by decide, by decide, ?_⟩
  intro ahora inicio fin
  cases h : calcular_duracion_meses ahora inicio fin with
  | none => exact Or.inl rfl
  | some n =>
    exact Or.inr ⟨n, rfl, calcular_no_negativo ahora inicio fin n h⟩

/-- C2 (counterexample): when spaCy is not importable at all, the
`ImportError` stub `separar_empresa_cargo_guion = (None, None)` is in
force, the dash pattern never fires, and the line
`"Honor y laurel - Analista de Procesos"` produces **no** record — not
the claimed company/title record.  (`(2026, 1)` stands for the wall
clock, which this line never consults.) -/
theorem claim_C2_counterexample :
    parsear_experiencia separarStub (2026, 1)
      "Honor y laurel - Analista de Procesos" = [] := by
  decide

/-- C2 (amended): only in the unavailability mode where spaCy is
importable but its model is absent (so `nlp_spacy`'s heuristic dash
split runs with `_SPACY_DISPONIBLE = False`) does the line
`"Honor y laurel - Analista de Procesos"` yield one record with company
`"Honor y laurel"` and title `"Analista de Procesos"`; in the
`ImportError` mode the stub returns no split and the output is empty. -/
theorem claim_C2 (ahora : Nat × Nat) :
    parsear_experiencia separar_empresa_cargo_guion ahora
      "Honor y laurel - Analista de Procesos" =
      [⟨some "Honor y laurel", some "Analista de Procesos",
        none, none, none, []⟩] ∧
    parsear_experiencia separarStub ahora
      "Honor y laurel - Analista de Procesos" = [] := by
  exact ⟨rfl, rfl⟩

/-- C3: the single line `"SULICOR SAS  04-2025  12-2025"` yields exactly
one record with company `"SULICOR SAS"`, start `"2025-04"`, end
`"2025-12"` and `duration_months = 8`, for any collaborator `sep` and
any wall clock. -/
theorem claim_C3 (sep : String → Option String × Option String)
    (ahora : Nat × Nat) :
    parsear_experiencia sep ahora "SULICOR SAS  04-2025  12-2025" =
      [⟨some "SULICOR SAS", none, some "2025-04", some "2025-12",
        some 8, []⟩] := by
  rfl

/-- C7: the core structuring function is a total Lean function of its
inputs (the embedding of code that catches every exception internally
and so never raises), and on empty input — all sections empty, empty
full text — every list of the result is empty, the employment count is
zero and the total experience years are zero. -/
theorem claim_C7 (sep : String → Option String × Option String)
    (ahora : Nat × Nat) :
    (estructurar_cv sep ahora ⟨"", "", "", "", "", ""⟩ "").experiencia = [] ∧
    (estructurar_cv sep ahora ⟨"", "", "", "", "", ""⟩ "").cantidad_empleos = 0 ∧
    (estructurar_cv sep ahora ⟨"", "", "", "", "", ""⟩ "").educacion = [] ∧
    (estructurar_cv sep ahora ⟨"", "", "", "", "", ""⟩ "").habilidades = [] ∧
    (estructurar_cv sep ahora ⟨"", "", "", "", "", ""⟩ "").cursos = [] ∧
    (estructurar_cv sep ahora ⟨"", "", "", "", "", ""⟩ "").skills_detectadas
      = ⟨[], []⟩ ∧
    (estructurar_cv sep ahora ⟨"", "", "", "", "", ""⟩ "").contacto
      = ⟨none, none⟩ ∧
    (estructurar_cv sep ahora ⟨"", "", "", "", "", ""⟩ "").perfil_resumen = "" ∧
    (estructurar_cv sep ahora ⟨"", "", "", "", "", ""⟩ "").referencias = "" ∧
    Resultado.anios_experiencia_total
      (estructurar_cv sep ahora ⟨"", "", "", "", "", ""⟩ "") = 0 := by
  refine ⟨rfl, rfl, rfl, rfl, rfl, rfl, rfl, rfl, rfl, ?_⟩
  show pyRound1 ((0 : Rat) / 12) = 0
  norm_num [pyRound1, redondeoMedioAPar]

/-! ### The closing invariant of the Experience Reconstructor (C6) -/

/-- A record was well closed: whenever both its dates are (prefixes of)
canonical year-month strings, its duration is exactly the calculator's
value on them. -/
def BuenCierre (ahora : Nat × Nat) (t : Trabajo) : Prop :=
  ∀ si sf, t.fecha_inicio = some si → t.fecha_fin = some sf →
    coincideYM si.data = true → coincideYM sf.data = true →
    t.duracion_meses = calcular_duracion_meses ahora (some si) (some sf)

/-- The list of records as closed by the reconstructor, before the final
discarding filter (`trabajos` at the end of `parsear_experiencia`, just
before `trabajos_limpios` is computed). -/
def trabajosCerrados (sep : String → Option String × Option String)
    (ahora : Nat × Nat) (texto : String) : List Trabajo :=
  if esBlanca texto.data then []
  else
    let lineas := ((pySplitLineas texto.data).map pyStrip).filter
      (fun l => !l.isEmpty)
    (cerrar_trabajo ahora (lineas.foldl (paso sep ahora) ⟨[], none, [], none⟩)).trabajos

theorem coincideYM_no_vacia {l : List Char} (h : coincideYM l = true) :
    l.isEmpty = false := by
  cases l with
  | nil => simp [coincideYM] at h
  | cons c t => rfl

theorem cierraT_fecha_inicio (ahora : Nat × Nat) (resp : List String)
    (t : Trabajo) : (cierraT ahora resp t).fecha_inicio = t.fecha_inicio := by
  simp only [cierraT]
  split <;> rfl

theorem cierraT_fecha_fin (ahora : Nat × Nat) (resp : List String)
    (t : Trabajo) : (cierraT ahora resp t).fecha_fin = t.fecha_fin := by
  simp only [cierraT]
  split <;> rfl

/-- Every record pushed by `cerrar_trabajo` satisfies the closing
invariant: the duration is set exactly under the canonical-dates guard. -/
theorem buenCierre_cierraT (ahora : Nat × Nat) (resp : List String)
    (t : Trabajo) : BuenCierre ahora (cierraT ahora resp t) := by
  intro si sf hsi hsf hyi hyf
  rw [cierraT_fecha_inicio] at hsi
  rw [cierraT_fecha_fin] at hsf
  have hcond : (pyVerdadera t.fecha_inicio && pyVerdadera t.fecha_fin
      && coincideYMOpt t.fecha_inicio && coincideYMOpt t.fecha_fin) = true := by
    rw [hsi, hsf]
    simp [pyVerdadera, coincideYMOpt, coincideYM_no_vacia hyi,
      coincideYM_no_vacia hyf, hyi, hyf]
  simp only [cierraT]
  split
  · show calcular_duracion_meses ahora t.fecha_inicio t.fecha_fin =
      calcular_duracion_meses ahora (some si) (some sf)
    rw [hsi, hsf]
  · next hcondFalse => exact absurd hcond hcondFalse

theorem cerrar_buen (ahora : Nat × Nat) (st : EstadoExp)
    (h : ∀ t ∈ st.trabajos, BuenCierre ahora t) :
    ∀ t ∈ (cerrar_trabajo ahora st).trabajos, BuenCierre ahora t := by
  intro t ht
  cases hac : st.actual with
  | none =>
    simp only [cerrar_trabajo, hac] at ht
    exact h t ht
  | some a =>
    simp only [cerrar_trabajo, hac] at ht
    rcases List.mem_append.mp ht with h1 | h2
    · exact h t h1
    · rcases List.mem_singleton.mp h2 with rfl
      exact buenCierre_cierraT ahora st.resp a

/-- One step of the reconstructor either leaves the closed-record list
unchanged or routes it through `cerrar_trabajo`. -/
theorem paso_trabajos (sep : String → Option String × Option String)
    (ahora : Nat × Nat) (st : EstadoExp) (lineaC : List Char) :
    (paso sep ahora st lineaC).trabajos = st.trabajos ∨
    (paso sep ahora st lineaC).trabajos = (cerrar_trabajo ahora st).trabajos := by
  simp only [paso]
  repeat' split
  all_goals first
    | exact Or.inl rfl
    | exact Or.inr rfl

theorem fold_buen (sep : String → Option String × Option String)
    (ahora : Nat × Nat) :
    ∀ (lineas : List (List Char)) (st : EstadoExp),
      (∀ t ∈ st.trabajos, BuenCierre ahora t) →
      ∀ t ∈ (lineas.foldl (paso sep ahora) st).trabajos, BuenCierre ahora t := by
  intro lineas
  induction lineas with
  | nil => intro st h; simpa using h
  | cons l ls ih =>
    intro st h
    simp only [List.foldl_cons]
    apply ih
    rcases paso_trabajos sep ahora st l with hp | hp
    · intro t ht; rw [hp] at ht; exact h t ht
    · intro t ht; rw [hp] at ht; exact cerrar_buen ahora st h t ht

/-- C6: the final output of the experience reconstructor is exactly the
list of closed records filtered by "has a truthy company or title": (a)
every output record has a truthy company or title and was well closed —
when both its dates are canonical year-month values its
`duracion_meses` equals the duration calculator's value on them; (b)
the output equals the closed-record list filtered by that predicate; so
(c) a closed record possessing a company or title is never discarded —
only the records with neither are. -/
theorem claim_C6 (sep : String → Option String × Option String)
    (ahora : Nat × Nat) (texto : String) :
    (∀ t ∈ parsear_experiencia sep ahora texto,
      (pyVerdadera t.cargo || pyVerdadera t.empresa) = true ∧
      BuenCierre ahora t) ∧
    parsear_experiencia sep ahora texto =
      (trabajosCerrados sep ahora texto).filter
        (fun t => pyVerdadera t.cargo || pyVerdadera t.empresa) ∧
    (∀ t ∈ trabajosCerrados sep ahora texto,
      (pyVerdadera t.cargo || pyVerdadera t.empresa) = true →
      t ∈ parsear_experiencia sep ahora texto) := by
  have hfiltro : parsear_experiencia sep ahora texto =
      (trabajosCerrados sep ahora texto).filter
        (fun t => pyVerdadera t.cargo || pyVerdadera t.empresa) := by
    by_cases hb : esBlanca texto.data
    · simp [parsear_experiencia, trabajosCerrados, hb]
    · simp [parsear_experiencia, trabajosCerrados, hb]
  refine ⟨?_, hfiltro, ?_⟩
  · intro t ht
    simp only [parsear_experiencia] at ht
    split at ht
    · simp at ht
    · have hmem := List.mem_filter.mp ht
      refine ⟨hmem.2, ?_⟩
      exact cerrar_buen ahora _
        (fold_buen sep ahora _ ⟨[], none, [], none⟩ (by simp)) t hmem.1
  · intro t ht hp
    rw [hfiltro]
    exact List.mem_filter.mpr ⟨ht, hp⟩

/-- C6 (witness): the SULICOR record has a truthy company, its duration
matches the calculator on its two canonical dates, and — being a closed
record with a company — it is not discarded: it is in the output. -/
theorem claim_C6_witness :
    ((pyVerdadera (Trabajo.cargo ⟨some "SULICOR SAS", none, some "2025-04",
        some "2025-12", some 8, []⟩) ||
      pyVerdadera (Trabajo.empresa ⟨some "SULICOR SAS", none, some "2025-04",
        some "2025-12", some 8, []⟩)) = true ∧
      BuenCierre (2026, 1)
        ⟨some "SULICOR SAS", none, some "2025-04", some "2025-12",
          some 8, []⟩) ∧
    (⟨some "SULICOR SAS", none, some "2025-04", some "2025-12",
      some 8, []⟩ : Trabajo) ∈
      parsear_experiencia separarStub (2026, 1)
        "SULICOR SAS  04-2025  12-2025" := by
  have h := claim_C6 separarStub (2026, 1) "SULICOR SAS  04-2025  12-2025"
  exact ⟨h.1 _ (by decide), h.2.2 _ (by decide) (by decide)⟩

/-! ### Segmentation lemmas (C8) -/

theorem pySplitLineas_ne_nil (l : List Char) : pySplitLineas l ≠ [] := by
  induction l with
  | nil => simp [pySplitLineas]
  | cons c t ih =>
    simp only [pySplitLineas]
    split
    · simp
    · cases h : pySplitLineas t with
      | nil => simp
      | cons a b => simp [h]

theorem unir_split (l : List Char) : unirLineas (pySplitLineas l) = l := by
  induction l with
  | nil => rfl
  | cons c t ih =>
    simp only [pySplitLineas]
    by_cases hc : c = '\n'
    · subst hc
      rw [if_pos rfl]
      cases h : pySplitLineas t with
      | nil => exact absurd h (pySplitLineas_ne_nil t)
      | cons a b =>
        rw [h] at ih
        show ([] : List Char) ++ '\n' :: unirLineas (a :: b) = '\n' :: t
        rw [ih]
        rfl
    · rw [if_neg hc]
      cases h : pySplitLineas t with
      | nil => exact absurd h (pySplitLineas_ne_nil t)
      | cons a b =>
        rw [h] at ih
        cases b with
        | nil =>
          show c :: a = c :: t
          simp only [unirLineas] at ih
          rw [ih]
        | cons b1 bs =>
          show (c :: a) ++ '\n' :: unirLineas (b1 :: bs) = c :: t
          simp only [unirLineas] at ih
          rw [List.cons_append, ih]

theorem largo_dropWhile_le (p : Char → Bool) (l : List Char) :
    (l.dropWhile p).length ≤ l.length := by
  induction l with
  | nil => simp
  | cons c t ih =>
    simp only [List.dropWhile]
    split
    · simp only [List.length_cons]
      omega
    · simp

theorem pyStrip_fij_cabeza {l : List Char} {c : Char} {t : List Char}
    (hfix : pyStrip l = l) (hl : l = c :: t) : pyEsEspacio c = false := by
  rcases hsp : pyEsEspacio c with _ | _
  · rfl
  · exfalso
    have h1 : (l.dropWhile pyEsEspacio).length < l.length := by
      rw [hl]
      simp only [List.dropWhile, hsp]
      have := largo_dropWhile_le pyEsEspacio t
      simp only [List.length_cons]
      omega
    have h2 : (pyStrip l).length ≤ (l.dropWhile pyEsEspacio).length := by
      unfold pyStrip pyStripGen
      rw [List.length_reverse]
      calc ((l.dropWhile pyEsEspacio).reverse.dropWhile pyEsEspacio).length
          ≤ (l.dropWhile pyEsEspacio).reverse.length :=
            largo_dropWhile_le pyEsEspacio _
        _ = (l.dropWhile pyEsEspacio).length := List.length_reverse _
    rw [hfix] at h2
    omega

/-- Folding header-free lines with a non-empty `perfil` accumulator in
state `perfil` just appends every line to `perfil`. -/
theorem foldSec (lineas : List (List Char)) :
    ∀ a : AcumSec, (∀ l ∈ lineas, es_encabezado (strDe l) = none) →
      a.actual = "perfil" → a.perfil ≠ [] →
      lineas.foldl pasoSeccion a = { a with perfil := a.perfil ++ lineas } := by
  induction lineas with
  | nil => intro a _ _ _; simp
  | cons l ls ih =>
    intro a henc hact hne
    simp only [List.foldl_cons]
    have hencl : es_encabezado (strDe l) = none := henc l (by simp)
    have hstep : pasoSeccion a l = { a with perfil := a.perfil ++ [l] } := by
      simp only [pasoSeccion, hencl, restoSeccion, acumGet, acumAppend, hact,
        if_pos, isEmpty_de_ne hne, Bool.and_false]
      simp
    rw [hstep]
    rw [ih { a with perfil := a.perfil ++ [l] }
      (fun x hx => henc x (by simp [hx])) (by simpa using hact) (by simp)]
    simp

/-- C8 (counterexample): `"hola "` is header-free, yet segmentation does
not return it unchanged — the final `strip` drops the trailing space. -/
theorem claim_C8_counterexample :
    dividir_secciones "hola " = ⟨"hola", "", "", "", "", ""⟩ ∧
    (∀ l ∈ pySplitLineas ("hola " : String).data,
      es_encabezado (strDe l) = none) ∧
    ("hola" : String) ≠ "hola " := by
  exact ⟨by decide, by decide, by decide⟩

/-- C8 (amended): for every header-free text that is already stripped
(equal to its own whitespace-strip, as every segment blob produced by
the Segmenter is), segmentation assigns the entire text unchanged to
`profile` and leaves every other section empty. -/
theorem data_mk (l : List Char) : (String.mk l).data = l := rfl

theorem claim_C8 (texto : String)
    (henc : ∀ l ∈ pySplitLineas texto.data, es_encabezado (strDe l) = none)
    (hstrip : pyStrip texto.data = texto.data) :
    dividir_secciones texto = ⟨texto, "", "", "", "", ""⟩ := by
  obtain ⟨datos⟩ := texto
  simp only [data_mk] at henc hstrip
  cases datos with
  | nil => rfl
  | cons c t =>
    have hc : pyEsEspacio c = false := pyStrip_fij_cabeza hstrip rfl
    have hnl : ¬ c = '\n' := by
      intro hcontra
      rw [hcontra] at hc
      simp [pyEsEspacio] at hc
    cases hsp : pySplitLineas t with
    | nil => exact absurd hsp (pySplitLineas_ne_nil t)
    | cons a b =>
      have hlineas : pySplitLineas (c :: t) = (c :: a) :: b := by
        simp only [pySplitLineas, if_neg hnl, hsp]
      rw [hlineas] at henc
      have henc1 : es_encabezado (strDe (c :: a)) = none := henc _ (by simp)
      have hstep : pasoSeccion ⟨"perfil", [], [], [], [], [], []⟩ (c :: a) =
          ⟨"perfil", [c :: a], [], [], [], [], []⟩ := by
        simp only [pasoSeccion, henc1, restoSeccion, acumGet, acumAppend]
        simp [esBlanca, hc]
      have hunir : unirLineas ((c :: a) :: b) = c :: t := by
        have h2 := unir_split (c :: t)
        rw [hlineas] at h2
        exact h2
      simp only [dividir_secciones, data_mk, hlineas, List.foldl_cons, hstep]
      rw [foldSec b ⟨"perfil", [c :: a], [], [], [], [], []⟩
        (fun x hx => henc x (by simp [hx])) rfl (by simp)]
      simp only []
      rw [show ([c :: a] : List (List Char)) ++ b = (c :: a) :: b from rfl]
      rw [hunir, hstrip]
      rfl

/-- C8 (witness for the amended claim): a concrete stripped, header-free
text is returned unchanged in `profile`. -/
theorem claim_C8_witness :
    dividir_secciones "hola mundo\nsegunda linea" =
      ⟨"hola mundo\nsegunda linea", "", "", "", "", ""⟩ :=
  claim_C8 "hola mundo\nsegunda linea" (by decide) (by decide)

/-! ### Decomposition of the phone pattern (C10) -/

theorem pClase_some {f : Char → Bool} {p : Option Char} {l : List Char}
    {k : Continuacion} {r : List Char} (h : pClase f p l k = some r) :
    ∃ c cs, l = c :: cs ∧ f c = true ∧ k (some c) cs = some r := by
  cases l with
  | nil => simp [pClase] at h
  | cons c cs =>
    simp only [pClase] at h
    split at h
    · exact ⟨c, cs, rfl, by assumption, h⟩
    · exact absurd h (by simp)

theorem pOpc_some {m : Patron} {p : Option Char} {l : List Char}
    {k : Continuacion} {r : List Char} (h : pOpc m p l k = some r) :
    m p l k = some r ∨ k p l = some r := by
  simp only [pOpc] at h
  cases hm : m p l k with
  | some x => rw [hm] at h; exact Or.inl h
  | none => rw [hm] at h; exact Or.inr h

theorem pFrontera_some {p : Option Char} {l : List Char}
    {k : Continuacion} {r : List Char} (h : pFrontera p l k = some r) :
    k p l = some r := by
  simp only [pFrontera] at h
  split at h
  · exact h
  · exact absurd h (by simp)

/-- An optional separator consumes a (possibly empty) prefix that the
normalising filter erases. -/
theorem opcSep_estructura {p : Option Char} {l : List Char}
    {k : Continuacion} {r : List Char}
    (h : pOpc (pClase esSepTel) p l k = some r) :
    ∃ s resto p2, l = s ++ resto ∧
      s.filter (fun c => !esSepTel c) = [] ∧ k p2 resto = some r := by
  rcases pOpc_some h with h2 | h2
  · obtain ⟨c, cs, rfl, hf, hk⟩ := pClase_some h2
    exact ⟨[c], cs, some c, rfl, by simp [hf], hk⟩
  · exact ⟨[], l, p, rfl, rfl, h2⟩

theorem digito_no_sep {c : Char} (h : esDigito c = true) :
    esSepTel c = false := by
  simp only [esSepTel, pyEsEspacio, Bool.or_eq_false_iff,
    decide_eq_false_iff_not]
  repeat' apply And.intro
  all_goals intro hEq
  all_goals (subst hEq; exact absurd h (by decide))

/-- Any anchored match of the phone pattern consumes a prefix whose
separator-free residue is exactly ten digits starting with `'3'`. -/
theorem tel_estructura (p : Option Char) (l : List Char) (r : List Char)
    (h : correr patronTelefono p l = some r) :
    ∃ pre, l = pre ++ r ∧
      (pre.filter (fun c => !esSepTel c)).length = 10 ∧
      (pre.filter (fun c => !esSepTel c)).all esDigito = true ∧
      (pre.filter (fun c => !esSepTel c)).head? = some '3' := by
  simp only [correr, patronTelefono, pSeq, pRep] at h
  replace h := pFrontera_some h
  obtain ⟨c0, l0, rfl, hf0, h⟩ := pClase_some h
  obtain rfl : c0 = '3' := of_decide_eq_true hf0
  obtain ⟨d1, l1, rfl, hd1, h⟩ := pClase_some h
  obtain ⟨d2, l2, rfl, hd2, h⟩ := pClase_some h
  obtain ⟨s1, l3, p3, hs1eq, hs1f, h⟩ := opcSep_estructura h
  obtain ⟨d3, l4, rfl, hd3, h⟩ := pClase_some h
  obtain ⟨d4, l5, rfl, hd4, h⟩ := pClase_some h
  obtain ⟨d5, l6, rfl, hd5, h⟩ := pClase_some h
  obtain ⟨s2, l7, p7, hs2eq, hs2f, h⟩ := opcSep_estructura h
  obtain ⟨d6, l8, rfl, hd6, h⟩ := pClase_some h
  obtain ⟨d7, l9, rfl, hd7, h⟩ := pClase_some h
  obtain ⟨s3, l10, p10, hs3eq, hs3f, h⟩ := opcSep_estructura h
  obtain ⟨d8, l11, rfl, hd8, h⟩ := pClase_some h
  obtain ⟨d9, l12, rfl, hd9, h⟩ := pClase_some h
  replace h := pFrontera_some h
  obtain rfl : l12 = r := by
    injection h
  subst hs1eq hs2eq hs3eq
  have h3sep : esSepTel '3' = false := by decide
  have h3dig : esDigito '3' = true := by decide
  refine ⟨'3' :: d1 :: d2 :: (s1 ++ (d3 :: d4 :: d5 :: (s2 ++ (d6 :: d7 ::
    (s3 ++ [d8, d9]))))), by simp, ?_, ?_, ?_⟩ <;>
    simp [List.filter_append, hs1f, hs2f, hs3f, h3sep, h3dig,
      digito_no_sep hd1, digito_no_sep hd2, digito_no_sep hd3,
      digito_no_sep hd4, digito_no_sep hd5, digito_no_sep hd6,
      digito_no_sep hd7, digito_no_sep hd8, digito_no_sep hd9, hd1, hd2,
      hd3, hd4, hd5, hd6, hd7, hd8, hd9]

/-- Any successful search for the phone pattern reports a match whose
separator-free residue is ten digits starting with `'3'`. -/
theorem busqueda_tel : ∀ (l : List Char) (p : Option Char) (pre : List Char)
    (res : List Char × List Char × List Char),
    reSearchDesde patronTelefono p pre l = some res →
    (res.2.1.filter (fun c => !esSepTel c)).length = 10 ∧
    (res.2.1.filter (fun c => !esSepTel c)).all esDigito = true ∧
    (res.2.1.filter (fun c => !esSepTel c)).head? = some '3' := by
  intro l
  induction l with
  | nil =>
    intro p pre res h
    simp only [reSearchDesde] at h
    cases hcp : correr patronTelefono p [] with
    | some resto =>
      obtain ⟨preM, heq, h10, _, _⟩ := tel_estructura p [] resto hcp
      have hpre : preM = [] := by
        cases preM with
        | nil => rfl
        | cons a b => simp at heq
      rw [hpre] at h10
      simp at h10
    | none => rw [hcp] at h; exact absurd h (by simp)
  | cons c cs ih =>
    intro p pre res h
    simp only [reSearchDesde] at h
    cases hcp : correr patronTelefono p (c :: cs) with
    | some resto =>
      rw [hcp] at h
      obtain ⟨preM, heq, h10, hall, hhead⟩ :=
        tel_estructura p (c :: cs) resto hcp
      have hm : (c :: cs).take ((c :: cs).length - resto.length) = preM := by
        rw [heq, List.length_append, Nat.add_sub_cancel]
        exact List.take_left preM resto
      obtain rfl : res = (pre.reverse, (c :: cs).take
          ((c :: cs).length - resto.length), resto) := by
        injection h with h2
        exact h2.symm
      rw [hm]
      exact ⟨h10, hall, hhead⟩
    | none =>
      rw [hcp] at h
      exact ih (some c) (c :: pre) res h

/-- C10: the contact extractor reports a phone only as a successful
search for the Colombian mobile pattern (`\b3` + 2 digits + 3 digits +
2 digits + 2 digits with optional dash/whitespace separators), and the
reported value is the match with separators removed — hence always ten
digits starting with 3.  Landlines and numbers not starting with 3
yield no phone field. -/
theorem claim_C10 :
    (∀ (texto : String) (v : String),
      (parsear_contacto_desde_perfil texto).telefono = some v →
      v.data.length = 10 ∧ v.data.all esDigito = true ∧
      v.data.head? = some '3') ∧
    (parsear_contacto_desde_perfil "Cel: 300-123 45 67").telefono =
      some "3001234567" ∧
    (parsear_contacto_desde_perfil "Tel fijo: 6015552233").telefono = none := by
  refine ⟨?_, by decide, by decide⟩
  intro texto v hv
  simp only [parsear_contacto_desde_perfil] at hv
  cases hs : reSearch patronTelefono texto.data with
  | none => rw [hs] at hv; exact absurd hv (by simp)
  | some res =>
    obtain ⟨pre0, emp, resto⟩ := res
    rw [hs] at hv
    have h3 := busqueda_tel texto.data none [] (pre0, emp, resto) hs
    obtain rfl : v = strDe (emp.filter fun c => !esSepTel c) := by
      injection hv with h2
      exact h2.symm
    exact ⟨h3.1, h3.2.1, h3.2.2⟩

/-- C10 (witness): the reported phone in a concrete text has the ten-
digit mobile shape. -/
theorem claim_C10_witness :
    ("3001234567" : String).data.length = 10 ∧
    ("3001234567" : String).data.all esDigito = true ∧
    ("3001234567" : String).data.head? = some '3' :=
  claim_C10.1 "Cel: 300-123 45 67" "3001234567" (by decide)

end HV



